import Mathlib

/-!
Shallow embedding of the shipyard `World` facade (src/src/world/mod.rs) and of
the collaborators the spec describes (borrow cell, all-storages registry,
scheduler, error types).  The collaborator modules are not part of the
repository snapshot, so their definitions are modelled from the spec; each
such definition says so in its doc comment.  Each claim of the specification
is then settled as a theorem about these definitions.
-/

namespace Shipyard

/-- Modelled from the spec: `error::Borrow` (spec section 7), the error kinds
of the borrow-counting cell.  `src/error.rs` is missing from the repository
snapshot. -/
inductive BorrowError
  | Shared
  | Unique
  | WrongThread
  | CountOverflow
  deriving DecidableEq

/-- Modelled from the spec: the state of a `BorrowCell` / `AtomicRefCell`
(spec sections 3 and 4.1): a borrow counter (-1 = exclusively borrowed, 0 =
free, k > 0 = k shared borrows, never exceeding the maximum shared count),
an optional owning-thread id, and the sync-required bit that lets shared
borrows come from any thread while exclusive borrows stay pinned to the
owning thread.  `src/atomic_refcell.rs` is missing from the repository
snapshot. -/
structure BorrowCellState where
  counter : Int
  owningThread : Option Nat
  sharedAnyThread : Bool
  deriving DecidableEq

/-- Modelled from the spec (section 3): the maximum shared count, which the
borrow counter never exceeds; `try_borrow` fails with `CountOverflow` when
the counter is at this value (section 4.1).  The spec leaves the bound
abstract; the model fixes the bound of a counter stored in one signed
64-bit machine word. -/
def maxSharedCount : Int := 2 ^ 63 - 1

/-- Modelled from the spec (section 3): a shared borrow is thread-legal when
the cell is unpinned, when the sync-required bit is set, or when the caller
is the owning thread. -/
def threadOkShared (caller : Nat) (c : BorrowCellState) : Bool :=
  match c.owningThread with
  | none => true
  | some t => c.sharedAnyThread || decide (caller = t)

/-- Modelled from the spec (section 3): an exclusive borrow is thread-legal
only on the owning thread when the cell is pinned. -/
def threadOkExclusive (caller : Nat) (c : BorrowCellState) : Bool :=
  match c.owningThread with
  | none => true
  | some t => decide (caller = t)

/-- Modelled from the spec (section 4.1): `BorrowCell::try_borrow` increments
the counter if nonnegative, fails with `Unique` if it is -1, fails with
`CountOverflow` if the counter is at its maximum, fails with `WrongThread`
off the owning thread. -/
def tryBorrow (caller : Nat) (c : BorrowCellState) :
    Except BorrowError BorrowCellState :=
  if threadOkShared caller c then
    if c.counter = -1 then Except.error BorrowError.Unique
    else if c.counter = maxSharedCount then Except.error BorrowError.CountOverflow
    else Except.ok { c with counter := c.counter + 1 }
  else Except.error BorrowError.WrongThread

/-- Modelled from the spec (section 4.1): `BorrowCell::try_borrow_mut` moves
the counter from 0 to -1, fails with `Shared` if the counter is positive,
with `Unique` if it is already -1, with `WrongThread` off the owning
thread. -/
def tryBorrowMut (caller : Nat) (c : BorrowCellState) :
    Except BorrowError BorrowCellState :=
  if threadOkExclusive caller c then
    if 0 < c.counter then Except.error BorrowError.Shared
    else if c.counter = -1 then Except.error BorrowError.Unique
    else Except.ok { c with counter := -1 }
  else Except.error BorrowError.WrongThread

/-- Modelled from the spec: `error::GetStorage` (spec section 7), returned
when a view cannot be constructed. -/
inductive GetStorage
  | Borrow (e : BorrowError)
  | MissingStorage (name : String)
  | StorageBusy
  deriving DecidableEq

/-- Modelled from the spec: `error::Run` (spec section 7), with the user
error type as a parameter. -/
inductive RunError (ε : Type)
  | GetStorage (g : GetStorage)
  | User (e : ε)
  deriving DecidableEq

/-- Modelled from the spec: `error::UniqueRemove` (spec section 7).  The
variant payloads follow tests/unique.rs: `StorageBorrow` carries the type
name of `T` together with the borrow error, `MissingUnique` carries the type
name of `T`. -/
inductive UniqueRemoveError
  | AllStorages
  | StorageBorrow (name : String) (e : BorrowError)
  | MissingUnique (name : String)
  deriving DecidableEq

/-- Modelled from the spec: `error::RunWorkload` (spec section 7).  `Run`
tags the system error with the offending system name. -/
inductive RunWorkloadError (ε : Type)
  | Scheduler
  | MissingWorkload (name : String)
  | Run (name : String) (e : RunError ε)
  deriving DecidableEq

/-- A Rust type, reduced to the one observable the claims need: its
`type_name` rendering.  Storage identity of unique storages is keyed by
this. -/
structure RustType where
  name : String
  deriving DecidableEq

/-- The Rust type `Unique<T>` for a base type `T`; its `type_name` is the
name reported by `GetStorage::MissingStorage` for unique views
(tests/unique.rs). -/
def uniqueOf (t : RustType) : RustType :=
  { name := "Unique<" ++ t.name ++ ">" }

/-- `StorageId` (spec section 3): either keyed by a compile-time type or a
user-chosen custom id. -/
inductive StorageId
  | OfType (t : RustType)
  | Custom (id : Nat)
  deriving DecidableEq

/-- A unique-storage slot: its borrow cell plus the stored value; `none`
models a drained slot (spec section 3, storage-slot lifecycle). -/
structure UniqueSlot (α : Type) where
  cell : BorrowCellState
  value : Option α
  deriving DecidableEq

/-- The `World` of src/src/world/mod.rs (line 24): the all-storages registry
behind an `AtomicRefCell`, here restricted to the storages the claims
exercise — unique storages keyed by their base Rust type holding values of
one payload type `α`, and custom storages keyed by `StorageId`.  (The
scheduler half of the struct is modelled separately; workload claims take
the scheduler state as an explicit argument.) -/
structure World (α : Type) where
  allStorages : BorrowCellState
  uniques : List (RustType × UniqueSlot α)
  customs : List (StorageId × α)
  deriving DecidableEq

/-- A free, unpinned borrow cell: the state of the `AllStorages` cell of a
fresh default `World` (src/src/world/mod.rs line 33, `non_send` feature
disabled) and of a storage created for a `Send + Sync` type. -/
def plainCell : BorrowCellState :=
  { counter := 0, owningThread := none, sharedAnyThread := false }

/-- Modelled from the spec (section 5, thread affinity): the cell of a
storage created by `add_unique_non_send` on thread `owner` — `Sync` only, so
shared borrows from any thread, exclusive borrows pinned. -/
def nonSendCell (owner : Nat) : BorrowCellState :=
  { counter := 0, owningThread := some owner, sharedAnyThread := true }

/-- `World::new` / `World::default` (src/src/world/mod.rs lines 29-49):
empty registry behind a free unpinned cell. -/
def World.new (α : Type) : World α :=
  { allStorages := plainCell, uniques := [], customs := [] }

/-- Lookup of the unique storage for base type `t` in the slot map. -/
def findUnique {α : Type} (w : World α) (t : RustType) : Option (UniqueSlot α) :=
  (w.uniques.find? (fun p => decide (p.1 = t))).map Prod.snd

/-- Replace the stored value of the unique storage for `t` (cell state kept);
used to model in-place mutation through a view and draining on removal. -/
def setUniqueValue {α : Type} (w : World α) (t : RustType) (v : Option α) :
    World α :=
  { w with
    uniques := w.uniques.map
      (fun p => if p.1 = t then (p.1, { p.2 with value := v }) else p) }

/-- `World::try_add_unique` (src/src/world/mod.rs lines 116-122): shared
borrow of `AllStorages`, then `AllStorages::add_unique` — modelled from the
spec and the doc comment in src ("Does nothing if the storage already
exists"): insert a fresh slot if absent.  The shared guard is released when
the call returns, so the `AllStorages` cell is unchanged in the result. -/
def tryAddUnique {α : Type} (caller : Nat) (w : World α) (t : RustType) (v : α) :
    Except BorrowError (World α) :=
  match tryBorrow caller w.allStorages with
  | Except.error e => Except.error e
  | Except.ok _ =>
    match findUnique w t with
    | some _ => Except.ok w
    | none =>
      Except.ok
        { w with uniques := w.uniques ++ [(t, { cell := plainCell, value := some v })] }

/-- `World::try_add_unique_non_send` (src/src/world/mod.rs lines 155-163):
as `try_add_unique` but the created slot is pinned to the calling thread
with shared access from any thread (`AllStorages::add_unique_non_send`
modelled from the spec, sections 4.3 and 5). -/
def tryAddUniqueNonSend {α : Type} (caller : Nat) (w : World α) (t : RustType)
    (v : α) : Except BorrowError (World α) :=
  match tryBorrow caller w.allStorages with
  | Except.error e => Except.error e
  | Except.ok _ =>
    match findUnique w t with
    | some _ => Except.ok w
    | none =>
      Except.ok
        { w with
          uniques := w.uniques ++ [(t, { cell := nonSendCell caller, value := some v })] }

/-- `World::try_remove_unique` (src/src/world/mod.rs lines 396-401): shared
borrow of `AllStorages` (failure mapped to `UniqueRemove::AllStorages`),
then `AllStorages::try_remove_unique` — modelled from the spec (section
4.2): exclusively borrow the slot, drain its value, mark the slot empty;
missing or already-drained slot reports `MissingUnique`, a slot borrow
failure reports `StorageBorrow` with the type name. -/
def tryRemoveUnique {α : Type} (caller : Nat) (w : World α) (t : RustType) :
    Except UniqueRemoveError (α × World α) :=
  match tryBorrow caller w.allStorages with
  | Except.error _ => Except.error UniqueRemoveError.AllStorages
  | Except.ok _ =>
    match findUnique w t with
    | none => Except.error (UniqueRemoveError.MissingUnique t.name)
    | some slot =>
      match tryBorrowMut caller slot.cell with
      | Except.error e => Except.error (UniqueRemoveError.StorageBorrow t.name e)
      | Except.ok _ =>
        match slot.value with
        | none => Except.error (UniqueRemoveError.MissingUnique t.name)
        | some v => Except.ok (v, setUniqueValue w t none)

/-- Modelled from the spec (section 4.3): `UniqueView::try_borrow` — shared
borrow of `AllStorages`, then a shared borrow of the unique slot; a missing
or drained slot yields `MissingStorage` with the type name of
`Unique<T>` (tests/unique.rs).  Unique storages are not created on
demand. -/
def tryBorrowUniqueView {α : Type} (caller : Nat) (w : World α) (t : RustType) :
    Except GetStorage α :=
  match tryBorrow caller w.allStorages with
  | Except.error e => Except.error (GetStorage.Borrow e)
  | Except.ok _ =>
    match findUnique w t with
    | none => Except.error (GetStorage.MissingStorage (uniqueOf t).name)
    | some slot =>
      match tryBorrow caller slot.cell with
      | Except.error e => Except.error (GetStorage.Borrow e)
      | Except.ok _ =>
        match slot.value with
        | none => Except.error (GetStorage.MissingStorage (uniqueOf t).name)
        | some v => Except.ok v

/-- Modelled from the spec (section 4.3): `UniqueViewMut::try_borrow` — as
the shared unique view but with an exclusive slot borrow. -/
def tryBorrowUniqueViewMut {α : Type} (caller : Nat) (w : World α)
    (t : RustType) : Except GetStorage α :=
  match tryBorrow caller w.allStorages with
  | Except.error e => Except.error (GetStorage.Borrow e)
  | Except.ok _ =>
    match findUnique w t with
    | none => Except.error (GetStorage.MissingStorage (uniqueOf t).name)
    | some slot =>
      match tryBorrowMut caller slot.cell with
      | Except.error e => Except.error (GetStorage.Borrow e)
      | Except.ok _ =>
        match slot.value with
        | none => Except.error (GetStorage.MissingStorage (uniqueOf t).name)
        | some v => Except.ok v

/-- `World::try_run` (src/src/world/mod.rs lines 1036-1041):
`Ok(s.run((), S::try_borrow(self)?))` — acquire the views, and on failure
return the converted error (the `From` conversion into `error::Run`, whose
module is missing, is modelled from the spec as `RunError.GetStorage`);
otherwise call the user function and wrap whatever it returns in `Ok`. -/
def tryRun {ε V R : Type} (viewsBorrow : Except GetStorage V) (f : V → R) :
    Except (RunError ε) R :=
  match viewsBorrow with
  | Except.error g => Except.error (RunError.GetStorage g)
  | Except.ok v => Except.ok (f v)

/-- `World::try_run_with_data` (src/src/world/mod.rs lines 784-790):
`Ok(s.run((data,), S::try_borrow(self)?))`. -/
def tryRunWithData {ε D V R : Type} (data : D) (viewsBorrow : Except GetStorage V)
    (f : D → V → R) : Except (RunError ε) R :=
  match viewsBorrow with
  | Except.error g => Except.error (RunError.GetStorage g)
  | Except.ok v => Except.ok (f data v)

/-- `World::try_run` applied to a system of one `UniqueViewMut<T>` view that
replaces the stored value by `f` of it (the writer systems of
tests/unique.rs); the mutation through the released guard is the value
update in the resulting world. -/
def tryRunWriter {α : Type} (caller : Nat) (w : World α) (t : RustType)
    (f : α → α) : Except (RunError Unit) (World α) :=
  tryRun (tryBorrowUniqueViewMut caller w t)
    (fun v => setUniqueValue w t (some (f v)))

/-- `World::try_run` applied to a system of one `UniqueView<T>` view that
reads the stored value (the reader systems of tests/unique.rs). -/
def tryRunReader {α : Type} (caller : Nat) (w : World α) (t : RustType) :
    Except (RunError Unit) α :=
  tryRun (tryBorrowUniqueView caller w t) (fun v => v)

/-- `World::try_add_custom_storage` (src/src/world/mod.rs lines 1353-1364):
shared borrow of `AllStorages`, then
`AllStorages::custom_storage_or_insert_by_id` — modelled from the spec
(section 4.2, `get_or_create`): insert if absent, keep the existing storage
otherwise; the result is discarded (`let _ =`). -/
def tryAddCustomStorage {α : Type} (caller : Nat) (w : World α)
    (id : StorageId) (s : α) : Except BorrowError (World α) :=
  match tryBorrow caller w.allStorages with
  | Except.error e => Except.error e
  | Except.ok _ =>
    match w.customs.find? (fun p => decide (p.1 = id)) with
    | some _ => Except.ok w
    | none => Except.ok { w with customs := w.customs ++ [(id, s)] }

/-- Modelled from the spec (section 3, Workload): the two compiled plans of a
workload — `sequential` in program order, `parallel` as ordered batches. -/
structure Batches where
  sequential : List Nat
  parallel : List (List Nat)
  deriving DecidableEq

/-- Modelled from the spec (sections 4.4 and 4.5): the scheduler holds, per
system index, the type-erased invoker and the system name, plus the named
workloads and the default plan.  An invoker takes the world and returns
`Result<(), error::Run>`; since the claims are about the control flow of the
batch runner, an invoker is represented by the outcome it returns
(`src/src/world/scheduler.rs` is missing from the repository snapshot). -/
structure Scheduler (ε : Type) where
  systems : List (Except (RunError ε) Unit)
  systemNames : List String
  workloads : List (String × Batches)
  defaultBatches : Batches

/-- Outcome of invoking system `i` (`scheduler.systems[index](self)`). -/
def sysOutcome {ε : Type} (sched : Scheduler ε) (i : Nat) :
    Except (RunError ε) Unit :=
  sched.systems.getD i (Except.ok ())

/-- Name of system `i` (`scheduler.system_names[index]`). -/
def sysName {ε : Type} (sched : Scheduler ε) (i : Nat) : String :=
  sched.systemNames.getD i ""

/-- Modelled from the spec (section 4.5): `Scheduler::workload(name)` looks
the plan up by name, failing with `MissingWorkload`. -/
def Scheduler.workload {ε : Type} (sched : Scheduler ε) (nm : String) :
    Except (RunWorkloadError ε) Batches :=
  match sched.workloads.find? (fun p => decide (p.1 = nm)) with
  | some p => Except.ok p.2
  | none => Except.error (RunWorkloadError.MissingWorkload nm)

/-- Modelled from the spec (section 4.5): `Scheduler::is_empty` — no workload
has been built. -/
def Scheduler.isEmpty {ε : Type} (sched : Scheduler ε) : Bool :=
  sched.workloads.isEmpty

/-- The `try_for_each` of src/src/world/mod.rs lines 1267-1271 and 1279-1283
over a list of system indices: run each in order, stop at the first error
and tag it `RunWorkload::Run` with the system name.  The first component is
the list of indices that were invoked.  (The rayon dispatch of a
multi-member batch is determinized to index order.) -/
def runIndices {ε : Type} (sched : Scheduler ε) :
    List Nat → List Nat × Except (RunWorkloadError ε) Unit
  | [] => ([], Except.ok ())
  | i :: rest =>
    match sysOutcome sched i with
    | Except.error e =>
      ([i], Except.error (RunWorkloadError.Run (sysName sched i) e))
    | Except.ok _ =>
      let p := runIndices sched rest
      (i :: p.1, p.2)

/-- The batch loop of `World::try_run_workload_index` with the `parallel`
feature (src/src/world/mod.rs lines 1257-1276): run the batches in order;
an error inside a batch (`?`) prevents any later batch from starting. -/
def runBatches {ε : Type} (sched : Scheduler ε) :
    List (List Nat) → List Nat × Except (RunWorkloadError ε) Unit
  | [] => ([], Except.ok ())
  | b :: rest =>
    let p := runIndices sched b
    match p.2 with
    | Except.error e => (p.1, Except.error e)
    | Except.ok _ =>
      let q := runBatches sched rest
      (p.1 ++ q.1, q.2)

/-- `World::try_run_workload` (src/src/world/mod.rs lines 1219-1228) followed
by `try_run_workload_index` on the parallel plan (lines 1257-1276): shared
borrow of the scheduler cell (failure mapped to `RunWorkload::Scheduler`),
workload lookup, then the batch loop. -/
def tryRunWorkload {ε : Type} (caller : Nat) (cell : BorrowCellState)
    (sched : Scheduler ε) (nm : String) :
    List Nat × Except (RunWorkloadError ε) Unit :=
  match tryBorrow caller cell with
  | Except.error _ => ([], Except.error RunWorkloadError.Scheduler)
  | Except.ok _ =>
    match Scheduler.workload sched nm with
    | Except.error e => ([], Except.error e)
    | Except.ok bs => runBatches sched bs.parallel

/-- `World::try_run_workload` compiled without the `parallel` feature
(src/src/world/mod.rs lines 1277-1283): the single-threaded path runs the
sequential plan with `try_for_each`. -/
def tryRunWorkloadSeq {ε : Type} (caller : Nat) (cell : BorrowCellState)
    (sched : Scheduler ε) (nm : String) :
    List Nat × Except (RunWorkloadError ε) Unit :=
  match tryBorrow caller cell with
  | Except.error _ => ([], Except.error RunWorkloadError.Scheduler)
  | Except.ok _ =>
    match Scheduler.workload sched nm with
    | Except.error e => ([], Except.error e)
    | Except.ok bs => runIndices sched bs.sequential

/-- `World::try_run_default` (src/src/world/mod.rs lines 1297-1307): shared
borrow of the scheduler cell, then the default plan if the scheduler is
nonempty; an empty scheduler returns `Ok(())` at once. -/
def tryRunDefault {ε : Type} (caller : Nat) (cell : BorrowCellState)
    (sched : Scheduler ε) : List Nat × Except (RunWorkloadError ε) Unit :=
  match tryBorrow caller cell with
  | Except.error _ => ([], Except.error RunWorkloadError.Scheduler)
  | Except.ok _ =>
    if Scheduler.isEmpty sched then ([], Except.ok ())
    else runBatches sched sched.defaultBatches.parallel

/-- The Rust type `u32`, as used by the unique-storage scenario of the
spec (S4) and tests/unique.rs. -/
def u32ty : RustType := { name := "u32" }

/-- A world that already holds a `u32` unique storage with value 5. -/
def worldWithFive : World Nat :=
  { allStorages := plainCell
    uniques := [(u32ty, { cell := plainCell, value := some 5 })]
    customs := [] }

/-- A world holding a `u32` unique storage created by
`add_unique_non_send` on thread 0 (the result of `tryAddUniqueNonSend 0` on
a fresh world). -/
def worldNonSend : World Nat :=
  { allStorages := plainCell
    uniques := [(u32ty, { cell := nonSendCell 0, value := some 0 })]
    customs := [] }

/-- A world that already holds a custom storage under `Custom 7`. -/
def worldWithCustom : World Nat :=
  { allStorages := plainCell
    uniques := []
    customs := [(StorageId.Custom 7, 3)] }

/-- A cell at the maximum shared count: shared-borrowed, not exclusively
borrowed. -/
def maxedCell : BorrowCellState :=
  { counter := maxSharedCount, owningThread := none, sharedAnyThread := false }

/-- A world whose `AllStorages` cell is shared-borrowed at the maximum
count. -/
def worldAtMax : World Nat :=
  { allStorages := maxedCell, uniques := [], customs := [] }

/-- A world holding a custom storage under `Custom 7`, with its
`AllStorages` cell shared-borrowed at the maximum count. -/
def worldCustomAtMax : World Nat :=
  { allStorages := maxedCell
    uniques := []
    customs := [(StorageId.Custom 7, 3)] }

/-- A scheduler cell while one `run_workload` is executing: it holds the
shared borrow it acquired, so the counter is 1. -/
def heldSchedulerCell : BorrowCellState :=
  { counter := 1, owningThread := none, sharedAnyThread := false }

/-- A one-workload scheduler whose single system succeeds. -/
def demoSched : Scheduler Unit :=
  { systems := [Except.ok ()]
    systemNames := ["sys_a"]
    workloads := [("main", { sequential := [0], parallel := [[0]] })]
    defaultBatches := { sequential := [0], parallel := [[0]] } }

/-- A two-system scheduler whose second system fails with a user error; its
workload "w" puts each system in its own batch. -/
def failSched : Scheduler Unit :=
  { systems := [Except.ok (), Except.error (RunError.User ())]
    systemNames := ["sys_ok", "sys_fail"]
    workloads := [("w", { sequential := [0, 1], parallel := [[0], [1]] })]
    defaultBatches := { sequential := [], parallel := [] } }

/-- A scheduler with no workload built. -/
def emptySched : Scheduler Unit :=
  { systems := []
    systemNames := []
    workloads := []
    defaultBatches := { sequential := [], parallel := [] } }

/-! ## Helper lemmas -/

theorem isOk_exists {σ β : Type} (x : Except σ β) (h : x.isOk = true) :
    ∃ b, x = Except.ok b := by
  cases x with
  | ok b => exact ⟨b, rfl⟩
  | error e => simp [Except.isOk, Except.toBool] at h

theorem tryBorrow_plainCell (caller : Nat) :
    tryBorrow caller plainCell = Except.ok { plainCell with counter := 1 } :=
  rfl

theorem tryBorrowMut_plainCell (caller : Nat) :
    tryBorrowMut caller plainCell = Except.ok { plainCell with counter := -1 } :=
  rfl

theorem tryBorrow_ok_of (caller : Nat) (c : BorrowCellState)
    (hpin : c.owningThread = none) (hc : 0 ≤ c.counter)
    (hmax : c.counter < maxSharedCount) :
    tryBorrow caller c = Except.ok { c with counter := c.counter + 1 } := by
  have hne : ¬ c.counter = -1 := by omega
  have hne2 : ¬ c.counter = maxSharedCount := by omega
  simp [tryBorrow, threadOkShared, hpin, hne, hne2]

theorem tryBorrow_overflow_err (caller : Nat) (c : BorrowCellState)
    (hpin : c.owningThread = none) (hc : c.counter = maxSharedCount) :
    tryBorrow caller c = Except.error BorrowError.CountOverflow := by
  have hne : (maxSharedCount : Int) ≠ -1 := by decide
  simp [tryBorrow, threadOkShared, hpin, hc, hne]

theorem tryBorrow_exclusive_err (caller : Nat) (c : BorrowCellState)
    (hpin : c.owningThread = none) (hc : c.counter = -1) :
    tryBorrow caller c = Except.error BorrowError.Unique := by
  simp [tryBorrow, threadOkShared, hpin, hc]

theorem tryBorrowMut_wrong_thread (caller owner : Nat) (c : BorrowCellState)
    (hpin : c.owningThread = some owner) (hne : caller ≠ owner) :
    tryBorrowMut caller c = Except.error BorrowError.WrongThread := by
  simp [tryBorrowMut, threadOkExclusive, hpin, hne]

theorem find?_append_of_none {β : Type} (p : β → Bool) (l1 l2 : List β)
    (h : l1.find? p = none) : (l1 ++ l2).find? p = l2.find? p := by
  induction l1 with
  | nil => rfl
  | cons a l ih =>
    by_cases hp : p a
    · rw [List.find?_cons_of_pos _ hp] at h
      exact absurd h (by simp)
    · rw [List.cons_append, List.find?_cons_of_neg _ hp]
      rw [List.find?_cons_of_neg _ hp] at h
      exact ih h

theorem findUnique_append {α : Type} (w : World α) (t : RustType)
    (slot : UniqueSlot α) (h : findUnique w t = none) :
    findUnique { w with uniques := w.uniques ++ [(t, slot)] } t = some slot := by
  unfold findUnique at h ⊢
  have hn : w.uniques.find? (fun p => decide (p.1 = t)) = none := by
    cases hf : w.uniques.find? (fun p => decide (p.1 = t)) with
    | none => rfl
    | some q => rw [hf] at h; simp at h
  simp [find?_append_of_none _ _ _ hn, List.find?]

theorem find?_update_list {α : Type} (l : List (RustType × UniqueSlot α))
    (t : RustType) (v : Option α) :
    (l.map (fun p => if p.1 = t then (p.1, { p.2 with value := v }) else p)).find?
        (fun p => decide (p.1 = t)) =
      (l.find? (fun p => decide (p.1 = t))).map
        (fun p => (p.1, { p.2 with value := v })) := by
  induction l with
  | nil => rfl
  | cons a l ih =>
    by_cases h : a.1 = t
    · simp [List.find?, h]
    · simp [List.find?, h, ih]

theorem findUnique_setUniqueValue {α : Type} (w : World α) (t : RustType)
    (v : Option α) :
    findUnique (setUniqueValue w t v) t =
      (findUnique w t).map (fun s => { s with value := v }) := by
  unfold findUnique setUniqueValue
  rw [find?_update_list]
  cases w.uniques.find? (fun p => decide (p.1 = t)) <;> rfl

theorem allStorages_setUniqueValue {α : Type} (w : World α) (t : RustType)
    (v : Option α) : (setUniqueValue w t v).allStorages = w.allStorages := rfl

theorem runIndices_all_ok {ε : Type} (sched : Scheduler ε) (l : List Nat)
    (h : ∀ i ∈ l, sysOutcome sched i = Except.ok ()) :
    runIndices sched l = (l, Except.ok ()) := by
  induction l with
  | nil => rfl
  | cons i rest ih =>
    have hi : sysOutcome sched i = Except.ok () := h i (by simp)
    have hrest := ih (fun j hj => h j (by simp [hj]))
    simp [runIndices, hi, hrest]

theorem runIndices_first_error {ε : Type} (sched : Scheduler ε)
    (pre : List Nat) (i : Nat) (post : List Nat) (e : RunError ε)
    (hpre : ∀ j ∈ pre, sysOutcome sched j = Except.ok ())
    (hi : sysOutcome sched i = Except.error e) :
    runIndices sched (pre ++ i :: post) =
      (pre ++ [i], Except.error (RunWorkloadError.Run (sysName sched i) e)) := by
  induction pre with
  | nil => simp [runIndices, hi]
  | cons j rest ih =>
    have hj : sysOutcome sched j = Except.ok () := hpre j (by simp)
    have hrest := ih (fun k hk => hpre k (by simp [hk]))
    simp [runIndices, hj, hrest]

theorem runIndices_append_error {ε : Type} (sched : Scheduler ε)
    (l1 l2 : List Nat) (e : RunWorkloadError ε)
    (h : (runIndices sched l1).2 = Except.error e) :
    runIndices sched (l1 ++ l2) = runIndices sched l1 := by
  induction l1 with
  | nil => exact absurd h (by simp [runIndices])
  | cons i rest ih =>
    cases hio : sysOutcome sched i with
    | error e2 => simp [runIndices, hio]
    | ok u =>
      cases u
      simp only [runIndices, hio] at h
      simp [runIndices, hio, ih h]

theorem runIndices_append_ok {ε : Type} (sched : Scheduler ε)
    (l1 l2 : List Nat) (h : (runIndices sched l1).2 = Except.ok ()) :
    runIndices sched (l1 ++ l2) =
      ((runIndices sched l1).1 ++ (runIndices sched l2).1,
        (runIndices sched l2).2) := by
  induction l1 with
  | nil => simp [runIndices]
  | cons i rest ih =>
    cases hio : sysOutcome sched i with
    | error e =>
      simp [runIndices, hio] at h
    | ok u =>
      cases u
      simp only [runIndices, hio] at h
      simp [runIndices, hio, ih h]

theorem runBatches_eq_flatten {ε : Type} (sched : Scheduler ε)
    (bss : List (List Nat)) :
    runBatches sched bss = runIndices sched bss.flatten := by
  induction bss with
  | nil => rfl
  | cons b rest ih =>
    rw [List.flatten_cons]
    cases h : (runIndices sched b).2 with
    | error e =>
      rw [runIndices_append_error sched b rest.flatten e h]
      simp only [runBatches, h]
      exact Prod.ext rfl h.symm
    | ok u =>
      cases u
      rw [runIndices_append_ok sched b rest.flatten h]
      simp only [runBatches, h, ih]

theorem workload_error_shape {ε : Type} (sched : Scheduler ε) (nm : String)
    (e : RunWorkloadError ε)
    (h : Scheduler.workload sched nm = Except.error e) :
    e = RunWorkloadError.MissingWorkload nm := by
  unfold Scheduler.workload at h
  split at h
  · simp at h
  · injection h with h2
    exact h2.symm

theorem runIndices_shape {ε : Type} (sched : Scheduler ε) (l : List Nat) :
    (runIndices sched l).2 = Except.ok () ∨
      ∃ n e, (runIndices sched l).2 = Except.error (RunWorkloadError.Run n e) := by
  induction l with
  | nil => left; rfl
  | cons i rest ih =>
    cases hio : sysOutcome sched i with
    | error e => right; exact ⟨sysName sched i, e, by simp [runIndices, hio]⟩
    | ok u =>
      cases u
      simpa [runIndices, hio] using ih

/-! ## Claim theorems -/

/-- Claim C1: when `try_run_workload` executes the compiled batches and some
system returns an error, the first error is returned as `RunWorkload::Run`
tagged with the offending system name, and no batch after the failing one is
started (the executed indices are exactly those up to and including the
failing system); if every system succeeds, `try_run_workload` returns
`Ok(())` having executed the whole plan. -/
theorem tryRunWorkload_first_error_aborts {ε : Type} (sched : Scheduler ε)
    (cell : BorrowCellState) (caller : Nat) (nm : String) (bs : Batches)
    (hb : (tryBorrow caller cell).isOk = true)
    (hw : Scheduler.workload sched nm = Except.ok bs) :
    ((∀ i ∈ bs.parallel.flatten, sysOutcome sched i = Except.ok ()) →
       tryRunWorkload caller cell sched nm =
         (bs.parallel.flatten, Except.ok ())) ∧
    (∀ pre i post e, bs.parallel.flatten = pre ++ i :: post →
       (∀ j ∈ pre, sysOutcome sched j = Except.ok ()) →
       sysOutcome sched i = Except.error e →
       tryRunWorkload caller cell sched nm =
         (pre ++ [i],
           Except.error (RunWorkloadError.Run (sysName sched i) e))) := by
  cases hcb : tryBorrow caller cell with
  | error e => rw [hcb] at hb; exact absurd hb (by simp [Except.isOk, Except.toBool])
  | ok c =>
    constructor
    · intro hall
      simp only [tryRunWorkload, hcb, hw, runBatches_eq_flatten]
      exact runIndices_all_ok sched _ hall
    · intro pre i post e hsplit hpre hi
      simp only [tryRunWorkload, hcb, hw, runBatches_eq_flatten, hsplit]
      exact runIndices_first_error sched pre i post e hpre hi

/-- Witness for C1 at a concrete two-batch workload whose second system
fails: only the two systems up to the failure run, and the error is tagged
with the failing system name. -/
theorem tryRunWorkload_first_error_aborts_witness :
    tryRunWorkload 0 plainCell failSched "w" =
      ([0, 1],
        Except.error (RunWorkloadError.Run "sys_fail" (RunError.User ()))) := by
  have h :=
    (tryRunWorkload_first_error_aborts failSched plainCell 0 "w"
        { sequential := [0, 1], parallel := [[0], [1]] } rfl rfl).2
      [0] 1 [] (RunError.User ()) rfl
      (by intro j hj; simp at hj; subst hj; rfl) rfl
  exact h

/-- Claim C4: without the `parallel` feature, `try_run_workload` invokes the
workload systems one after another in the order of the compiled sequential
plan (program order), stopping at the first error. -/
theorem tryRunWorkloadSeq_program_order {ε : Type} (sched : Scheduler ε)
    (cell : BorrowCellState) (caller : Nat) (nm : String) (bs : Batches)
    (hb : (tryBorrow caller cell).isOk = true)
    (hw : Scheduler.workload sched nm = Except.ok bs) :
    ((∀ i ∈ bs.sequential, sysOutcome sched i = Except.ok ()) →
       tryRunWorkloadSeq caller cell sched nm =
         (bs.sequential, Except.ok ())) ∧
    (∀ pre i post e, bs.sequential = pre ++ i :: post →
       (∀ j ∈ pre, sysOutcome sched j = Except.ok ()) →
       sysOutcome sched i = Except.error e →
       tryRunWorkloadSeq caller cell sched nm =
         (pre ++ [i],
           Except.error (RunWorkloadError.Run (sysName sched i) e))) := by
  cases hcb : tryBorrow caller cell with
  | error e => rw [hcb] at hb; exact absurd hb (by simp [Except.isOk, Except.toBool])
  | ok c =>
    constructor
    · intro hall
      simp only [tryRunWorkloadSeq, hcb, hw]
      exact runIndices_all_ok sched _ hall
    · intro pre i post e hsplit hpre hi
      simp only [tryRunWorkloadSeq, hcb, hw, hsplit]
      exact runIndices_first_error sched pre i post e hpre hi

/-- Witness for C4: the same failing workload run on the sequential plan
stops right after the failing system. -/
theorem tryRunWorkloadSeq_program_order_witness :
    tryRunWorkloadSeq 0 plainCell failSched "w" =
      ([0, 1],
        Except.error (RunWorkloadError.Run "sys_fail" (RunError.User ()))) := by
  have h :=
    (tryRunWorkloadSeq_program_order failSched plainCell 0 "w"
        { sequential := [0, 1], parallel := [[0], [1]] } rfl rfl).2
      [0] 1 [] (RunError.User ()) rfl
      (by intro j hj; simp at hj; subst hj; rfl) rfl
  exact h

/-- Claim C9: on a world whose scheduler has no workload built,
`try_run_default` returns `Ok(())` without running any system and without a
missing-workload error; it fails only when the scheduler borrow fails, with
`RunWorkload::Scheduler`. -/
theorem tryRunDefault_empty_scheduler {ε : Type} (sched : Scheduler ε)
    (cell : BorrowCellState) (caller : Nat)
    (h : sched.workloads = []) :
    ((tryBorrow caller cell).isOk = true →
       tryRunDefault caller cell sched = ([], Except.ok ())) ∧
    ((tryBorrow caller cell).isOk = false →
       tryRunDefault caller cell sched =
         ([], Except.error RunWorkloadError.Scheduler)) := by
  have hemp : Scheduler.isEmpty sched = true := by
    simp [Scheduler.isEmpty, h]
  constructor
  · intro hb
    cases hcb : tryBorrow caller cell with
    | error e => rw [hcb] at hb; exact absurd hb (by simp [Except.isOk, Except.toBool])
    | ok c => simp [tryRunDefault, hcb, hemp]
  · intro hb
    cases hcb : tryBorrow caller cell with
    | error e => simp [tryRunDefault, hcb]
    | ok c => rw [hcb] at hb; exact absurd hb (by simp [Except.isOk, Except.toBool])

/-- Witness for C9: a fresh scheduler behind a free cell yields `Ok(())`. -/
theorem tryRunDefault_empty_scheduler_witness :
    tryRunDefault 0 plainCell emptySched = ([], Except.ok ()) :=
  (tryRunDefault_empty_scheduler emptySched plainCell 0 rfl).1 rfl

/-- Claim C3, counterexample: `try_run` wraps whatever the user function
returns in `Ok`; when the user function itself produces an error value, the
call returns `Ok(Err(..))` and does NOT map it to `RunError::User` as the
claim states. -/
theorem tryRun_user_error_not_mapped :
    (tryRun (Except.ok ()) (fun _ => (Except.error "boom" : Except String Nat)) :
        Except (RunError String) (Except String Nat)) =
      Except.ok (Except.error "boom") ∧
    (tryRun (Except.ok ()) (fun _ => (Except.error "boom" : Except String Nat)) :
        Except (RunError String) (Except String Nat)) ≠
      Except.error (RunError.User "boom") := by
  constructor
  · rfl
  · intro h
    have h2 : (Except.ok (Except.error "boom") :
        Except (RunError String) (Except String Nat)) =
        Except.error (RunError.User "boom") := h
    simp at h2

/-- Claim C3 (amended): for every system run through `try_run` or
`try_run_with_data`, the views are acquired through the borrow result; if
acquisition fails the call returns the resulting `Run::GetStorage` error and
the user function is not invoked (the result is the same for every user
function); otherwise the user function is called and its return value —
including any error value it produces — is returned unchanged inside `Ok`,
never mapped to `RunError::User`. -/
theorem tryRun_views_then_call {ε D V R : Type} :
    (∀ (g : GetStorage) (f : V → R),
       (tryRun (Except.error g) f : Except (RunError ε) R) =
         Except.error (RunError.GetStorage g)) ∧
    (∀ (v : V) (f : V → R),
       (tryRun (Except.ok v) f : Except (RunError ε) R) = Except.ok (f v)) ∧
    (∀ (d : D) (g : GetStorage) (f : D → V → R),
       (tryRunWithData d (Except.error g) f : Except (RunError ε) R) =
         Except.error (RunError.GetStorage g)) ∧
    (∀ (d : D) (v : V) (f : D → V → R),
       (tryRunWithData d (Except.ok v) f : Except (RunError ε) R) =
         Except.ok (f d v)) :=
  ⟨fun _ _ => rfl, fun _ _ => rfl, fun _ _ _ => rfl, fun _ _ _ => rfl⟩

/-- Claim C8, counterexample: while one `run_workload` holds the scheduler
borrow (counter 1), a concurrent `run_workload` is NOT stopped at the
scheduler acquisition — the borrow is shared, the second call acquires it
and runs the whole workload, refuting serialisation through the scheduler
borrow. -/
theorem run_workload_concurrent_proceeds :
    tryRunWorkload 0 heldSchedulerCell demoSched "main" =
      ([0], Except.ok ()) ∧
    tryRunWorkload 0 heldSchedulerCell demoSched "main" ≠
      ([], Except.error RunWorkloadError.Scheduler) := by
  have hx : tryRunWorkload 0 heldSchedulerCell demoSched "main" =
      (([0] : List Nat), (Except.ok () : Except (RunWorkloadError Unit) Unit)) := rfl
  constructor
  · exact hx
  · rw [hx]
    intro h
    simp at h

/-- Claim C8 (amended): `run_workload` takes only a shared borrow of the
scheduler, so the scheduler borrow does not serialise invocations: while
one `run_workload` is executing (the scheduler cell holds its shared
borrow, counter at least 1) and the shared count is below the cell maximum,
a concurrent `run_workload` also acquires the scheduler and proceeds past
the acquisition; two successive calls on one thread are ordered by program
order only. -/
theorem run_workload_scheduler_shared {ε : Type} (sched : Scheduler ε)
    (cell : BorrowCellState) (caller : Nat) (nm : String)
    (hpin : cell.owningThread = none)
    (hheld : 1 ≤ cell.counter)
    (hmax : cell.counter < maxSharedCount) :
    (tryRunWorkload caller cell sched nm).2 ≠
      Except.error RunWorkloadError.Scheduler := by
  have hok := tryBorrow_ok_of caller cell hpin (by omega) hmax
  cases hw : Scheduler.workload sched nm with
  | error e =>
    have he := workload_error_shape sched nm e hw
    subst he
    simp [tryRunWorkload, hok, hw]
  | ok bs =>
    simp only [tryRunWorkload, hok, hw, runBatches_eq_flatten]
    rcases runIndices_shape sched bs.parallel.flatten with h | ⟨n, e, h⟩ <;>
      simp [h]

/-- Witness for the amended C8: a scheduler cell holding one live shared
borrow lets a concurrent `run_workload` proceed past the scheduler
acquisition. -/
theorem run_workload_scheduler_shared_witness :
    (tryRunWorkload 0 heldSchedulerCell demoSched "main").2 ≠
      Except.error RunWorkloadError.Scheduler :=
  run_workload_scheduler_shared demoSched heldSchedulerCell 0 "main" rfl
    (by decide) (by decide)

/-- Claim C5: on a freshly created world where no unique storage of type `T`
was ever added, `try_remove_unique::<T>` returns
`UniqueRemove::MissingUnique` carrying the type name of `T`, and running a
system that takes `UniqueView<T>` or `UniqueViewMut<T>` returns
`Run::GetStorage(MissingStorage)` carrying the type name of `Unique<T>`. -/
theorem fresh_world_missing_unique (α : Type) (t : RustType) (f : α → α) :
    tryRemoveUnique 0 (World.new α) t =
      Except.error (UniqueRemoveError.MissingUnique t.name) ∧
    tryRunReader 0 (World.new α) t =
      Except.error (RunError.GetStorage
        (GetStorage.MissingStorage (uniqueOf t).name)) ∧
    tryRunWriter 0 (World.new α) t f =
      Except.error (RunError.GetStorage
        (GetStorage.MissingStorage (uniqueOf t).name)) :=
  ⟨rfl, rfl, rfl⟩

/-- Claim C2, counterexample: on a world that already holds a `u32` unique
storage with value 5, `try_add_unique(0)` succeeds but changes nothing, the
incrementing writer succeeds, and the subsequent reader observes 6, not 1 —
refuting the claim for arbitrary worlds. -/
theorem unique_scenario_existing_counterexample :
    tryAddUnique 0 worldWithFive u32ty 0 = Except.ok worldWithFive ∧
    tryRunWriter 0 worldWithFive u32ty (fun x => x + 1) =
      Except.ok (setUniqueValue worldWithFive u32ty (some 6)) ∧
    tryRunReader 0 (setUniqueValue worldWithFive u32ty (some 6)) u32ty =
      Except.ok 6 ∧
    (6 : Nat) ≠ 1 :=
  ⟨rfl, rfl, rfl, by decide⟩

/-- Claim C2 (amended): for every world that holds no `u32` unique storage
(and whose `AllStorages` cell is unpinned, not exclusively borrowed, and
below the maximum shared count, so that the shared borrow succeeds):
after `try_add_unique(0u32)` succeeds, running a system taking
`UniqueViewMut<u32>` that increments it succeeds, a subsequent
`UniqueView<u32>` reader observes 1, `try_remove_unique::<u32>()` succeeds
returning the stored value 1, and afterwards the same writer returns
`Run::GetStorage(MissingStorage)` with the type name of `Unique<u32>`. -/
theorem unique_storage_roundtrip (w : World Nat) (caller : Nat)
    (hpin : w.allStorages.owningThread = none)
    (hctr : 0 ≤ w.allStorages.counter)
    (hmax : w.allStorages.counter < maxSharedCount)
    (h0 : findUnique w u32ty = none) :
    ∃ w1 w2 w3,
      tryAddUnique caller w u32ty 0 = Except.ok w1 ∧
      tryRunWriter caller w1 u32ty (fun x => x + 1) = Except.ok w2 ∧
      tryRunReader caller w2 u32ty = Except.ok 1 ∧
      tryRemoveUnique caller w2 u32ty = Except.ok (1, w3) ∧
      tryRunWriter caller w3 u32ty (fun x => x + 1) =
        Except.error (RunError.GetStorage
          (GetStorage.MissingStorage "Unique<u32>")) := by
  have hok := tryBorrow_ok_of caller w.allStorages hpin hctr hmax
  have hname : (uniqueOf u32ty).name = "Unique<u32>" := rfl
  have h1 : tryAddUnique caller w u32ty 0 =
      Except.ok { w with uniques :=
        w.uniques ++ [(u32ty, { cell := plainCell, value := some 0 })] } := by
    simp [tryAddUnique, hok, h0]
  have hf1 : findUnique { w with uniques :=
      w.uniques ++ [(u32ty, { cell := plainCell, value := some 0 })] } u32ty =
      some { cell := plainCell, value := some 0 } :=
    findUnique_append w u32ty _ h0
  have hbv1 : tryBorrowUniqueViewMut caller
      { w with uniques :=
        w.uniques ++ [(u32ty, { cell := plainCell, value := some 0 })] } u32ty =
      Except.ok 0 := by
    simp [tryBorrowUniqueViewMut, hok, hf1, tryBorrowMut_plainCell]
  have h2 : tryRunWriter caller
      { w with uniques :=
        w.uniques ++ [(u32ty, { cell := plainCell, value := some 0 })] } u32ty
      (fun x => x + 1) =
      Except.ok (setUniqueValue
        { w with uniques :=
          w.uniques ++ [(u32ty, { cell := plainCell, value := some 0 })] }
        u32ty (some 1)) := by
    simp [tryRunWriter, tryRun, hbv1]
  have hf2 : findUnique (setUniqueValue
      { w with uniques :=
        w.uniques ++ [(u32ty, { cell := plainCell, value := some 0 })] }
      u32ty (some 1)) u32ty =
      some { cell := plainCell, value := some 1 } := by
    rw [findUnique_setUniqueValue, hf1]
    rfl
  have hbv2 : tryBorrowUniqueView caller (setUniqueValue
      { w with uniques :=
        w.uniques ++ [(u32ty, { cell := plainCell, value := some 0 })] }
      u32ty (some 1)) u32ty = Except.ok 1 := by
    simp [tryBorrowUniqueView, allStorages_setUniqueValue, hok, hf2,
      tryBorrow_plainCell]
  have h3 : tryRunReader caller (setUniqueValue
      { w with uniques :=
        w.uniques ++ [(u32ty, { cell := plainCell, value := some 0 })] }
      u32ty (some 1)) u32ty = Except.ok 1 := by
    simp [tryRunReader, tryRun, hbv2]
  have h4 : tryRemoveUnique caller (setUniqueValue
      { w with uniques :=
        w.uniques ++ [(u32ty, { cell := plainCell, value := some 0 })] }
      u32ty (some 1)) u32ty =
      Except.ok (1, setUniqueValue (setUniqueValue
        { w with uniques :=
          w.uniques ++ [(u32ty, { cell := plainCell, value := some 0 })] }
        u32ty (some 1)) u32ty none) := by
    simp [tryRemoveUnique, allStorages_setUniqueValue, hok, hf2,
      tryBorrowMut_plainCell]
  have hf3 : findUnique (setUniqueValue (setUniqueValue
      { w with uniques :=
        w.uniques ++ [(u32ty, { cell := plainCell, value := some 0 })] }
      u32ty (some 1)) u32ty none) u32ty =
      some { cell := plainCell, value := none } := by
    rw [findUnique_setUniqueValue, hf2]
    rfl
  have hbv3 : tryBorrowUniqueViewMut caller (setUniqueValue (setUniqueValue
      { w with uniques :=
        w.uniques ++ [(u32ty, { cell := plainCell, value := some 0 })] }
      u32ty (some 1)) u32ty none) u32ty =
      Except.error (GetStorage.MissingStorage "Unique<u32>") := by
    rw [← hname]
    simp [tryBorrowUniqueViewMut, allStorages_setUniqueValue, hok, hf3,
      tryBorrowMut_plainCell]
  have h5 : tryRunWriter caller (setUniqueValue (setUniqueValue
      { w with uniques :=
        w.uniques ++ [(u32ty, { cell := plainCell, value := some 0 })] }
      u32ty (some 1)) u32ty none) u32ty (fun x => x + 1) =
      Except.error (RunError.GetStorage
        (GetStorage.MissingStorage "Unique<u32>")) := by
    simp [tryRunWriter, tryRun, hbv3]
  exact ⟨_, _, _, h1, h2, h3, h4, h5⟩

/-- Witness for the amended C2, on a fresh world. -/
theorem unique_storage_roundtrip_witness :
    ∃ w1 w2 w3,
      tryAddUnique 0 (World.new Nat) u32ty 0 = Except.ok w1 ∧
      tryRunWriter 0 w1 u32ty (fun x => x + 1) = Except.ok w2 ∧
      tryRunReader 0 w2 u32ty = Except.ok 1 ∧
      tryRemoveUnique 0 w2 u32ty = Except.ok (1, w3) ∧
      tryRunWriter 0 w3 u32ty (fun x => x + 1) =
        Except.error (RunError.GetStorage
          (GetStorage.MissingStorage "Unique<u32>")) :=
  unique_storage_roundtrip (World.new Nat) 0 rfl (by decide) (by decide) rfl

/-- Claim C6: when a world holds a unique storage created with
`add_unique_non_send` on thread `A`, calling `try_remove_unique` for that
type from a different thread returns `UniqueRemove::StorageBorrow` with the
type name and `Borrow::WrongThread`; and such a pinned storage cell can
never be exclusively borrowed off its owning thread, whatever its counter
state. -/
theorem non_send_unique_wrong_thread (α : Type) (w0 w : World α)
    (t : RustType) (v : α) (A caller : Nat)
    (h0 : findUnique w0 t = none)
    (hadd : tryAddUniqueNonSend A w0 t v = Except.ok w)
    (hne : caller ≠ A)
    (hb : (tryBorrow caller w.allStorages).isOk = true) :
    tryRemoveUnique caller w t =
      Except.error (UniqueRemoveError.StorageBorrow t.name
        BorrowError.WrongThread) ∧
    (∀ c : BorrowCellState, c.owningThread = some A →
      tryBorrowMut caller c = Except.error BorrowError.WrongThread) := by
  have hmut : ∀ c : BorrowCellState, c.owningThread = some A →
      tryBorrowMut caller c = Except.error BorrowError.WrongThread :=
    fun c hco => tryBorrowMut_wrong_thread caller A c hco hne
  cases hcb : tryBorrow A w0.allStorages with
  | error e =>
    simp [tryAddUniqueNonSend, hcb] at hadd
  | ok c0 =>
    simp only [tryAddUniqueNonSend, hcb, h0, Except.ok.injEq] at hadd
    subst hadd
    have hfw := findUnique_append w0 t
      { cell := nonSendCell A, value := some v } h0
    refine ⟨?_, hmut⟩
    obtain ⟨c1, hc1⟩ := isOk_exists _ hb
    simp [tryRemoveUnique, hc1, hfw, hmut (nonSendCell A) rfl]

/-- Witness for C6: removal from thread 1 of a storage pinned to thread 0
fails with `WrongThread`. -/
theorem non_send_unique_wrong_thread_witness :
    tryRemoveUnique 1 worldNonSend u32ty =
      Except.error (UniqueRemoveError.StorageBorrow "u32"
        BorrowError.WrongThread) :=
  (non_send_unique_wrong_thread Nat (World.new Nat) worldNonSend u32ty 0 0 1
    rfl rfl (by decide) rfl).1

/-- Claim C7, counterexample: with `AllStorages` shared-borrowed at the
maximum shared count — a positive counter, so not exclusively borrowed —
`try_add_unique` returns an `error::Borrow` (`CountOverflow`), refuting
success for every shared-borrowed state and error only under exclusive
borrow. -/
theorem tryAddUnique_overflow_counterexample :
    0 < worldAtMax.allStorages.counter ∧
    tryAddUnique 0 worldAtMax u32ty (0 : Nat) =
      Except.error BorrowError.CountOverflow := by
  constructor
  · decide
  · simp [tryAddUnique,
      tryBorrow_overflow_err 0 worldAtMax.allStorages rfl rfl]

/-- Claim C7 (amended): `try_add_unique` takes only a shared borrow of
`AllStorages`: it succeeds — and the unique storage is present afterwards —
whenever the `AllStorages` cell is free or shared-borrowed below the
maximum shared count; it returns an `error::Borrow` when `AllStorages` is
exclusively borrowed (`Borrow::Unique`) and also when the shared count is
at its maximum (`Borrow::CountOverflow`). -/
theorem tryAddUnique_shared_borrow_only (α : Type) (w : World α)
    (t : RustType) (v : α) (caller : Nat)
    (hpin : w.allStorages.owningThread = none) :
    (0 ≤ w.allStorages.counter → w.allStorages.counter < maxSharedCount →
      ∃ w1, tryAddUnique caller w t v = Except.ok w1 ∧
        (findUnique w1 t).isSome = true) ∧
    (w.allStorages.counter = -1 →
      tryAddUnique caller w t v = Except.error BorrowError.Unique) ∧
    (w.allStorages.counter = maxSharedCount →
      tryAddUnique caller w t v = Except.error BorrowError.CountOverflow) := by
  refine ⟨?_, ?_, ?_⟩
  · intro hc hm
    have hok := tryBorrow_ok_of caller w.allStorages hpin hc hm
    cases hf : findUnique w t with
    | some slot =>
      refine ⟨w, ?_, ?_⟩
      · simp [tryAddUnique, hok, hf]
      · simp [hf]
    | none =>
      refine ⟨{ w with uniques :=
          w.uniques ++ [(t, { cell := plainCell, value := some v })] }, ?_, ?_⟩
      · simp [tryAddUnique, hok, hf]
      · simp [findUnique_append w t _ hf]
  · intro hc
    have herr := tryBorrow_exclusive_err caller w.allStorages hpin hc
    simp [tryAddUnique, herr]
  · intro hc
    have herr := tryBorrow_overflow_err caller w.allStorages hpin hc
    simp [tryAddUnique, herr]

/-- Witness for C7 on a cell with three live shared borrows. -/
theorem tryAddUnique_shared_borrow_only_witness :
    ∃ w1, tryAddUnique 0
        { allStorages :=
            { counter := 3, owningThread := none, sharedAnyThread := false }
          uniques := []
          customs := [] } u32ty (5 : Nat) = Except.ok w1 ∧
      (findUnique w1 u32ty).isSome = true :=
  (tryAddUnique_shared_borrow_only Nat
    { allStorages :=
        { counter := 3, owningThread := none, sharedAnyThread := false }
      uniques := []
      customs := [] } u32ty 5 0 rfl).1 (by decide) (by decide)

/-- Claim C10, counterexample: with `AllStorages` shared-borrowed at the
maximum shared count — not exclusively borrowed — and a storage already
present under the given id, `try_add_custom_storage` returns an
`error::Borrow` (`CountOverflow`) instead of `Ok(())`, refuting error only
under exclusive borrow. -/
theorem tryAddCustomStorage_overflow_counterexample :
    0 < worldCustomAtMax.allStorages.counter ∧
    (worldCustomAtMax.customs.find?
        (fun p => decide (p.1 = StorageId.Custom 7))).isSome = true ∧
    tryAddCustomStorage 0 worldCustomAtMax (StorageId.Custom 7) (9 : Nat) =
      Except.error BorrowError.CountOverflow := by
  refine ⟨by decide, by decide, ?_⟩
  simp [tryAddCustomStorage,
    tryBorrow_overflow_err 0 worldCustomAtMax.allStorages rfl rfl]

/-- Claim C10 (amended): when a storage with the given id already exists,
`try_add_custom_storage` leaves the world unchanged — the existing storage
is kept and the argument discarded — and returns `Ok(())` whenever the
`AllStorages` cell is free or shared-borrowed below the maximum shared
count; it returns an `error::Borrow` when `AllStorages` is exclusively
borrowed (`Borrow::Unique`) and also when the shared count is at its
maximum (`Borrow::CountOverflow`). -/
theorem tryAddCustomStorage_existing_unchanged (α : Type) (w : World α)
    (id : StorageId) (s : α) (caller : Nat)
    (hpin : w.allStorages.owningThread = none)
    (hex : (w.customs.find? (fun p => decide (p.1 = id))).isSome = true) :
    (0 ≤ w.allStorages.counter → w.allStorages.counter < maxSharedCount →
      tryAddCustomStorage caller w id s = Except.ok w) ∧
    (w.allStorages.counter = -1 →
      tryAddCustomStorage caller w id s = Except.error BorrowError.Unique) ∧
    (w.allStorages.counter = maxSharedCount →
      tryAddCustomStorage caller w id s =
        Except.error BorrowError.CountOverflow) := by
  refine ⟨?_, ?_, ?_⟩
  · intro hc hm
    have hok := tryBorrow_ok_of caller w.allStorages hpin hc hm
    cases hf : w.customs.find? (fun p => decide (p.1 = id)) with
    | none => rw [hf] at hex; simp at hex
    | some q => simp [tryAddCustomStorage, hok, hf]
  · intro hc
    have herr := tryBorrow_exclusive_err caller w.allStorages hpin hc
    simp [tryAddCustomStorage, herr]
  · intro hc
    have herr := tryBorrow_overflow_err caller w.allStorages hpin hc
    simp [tryAddCustomStorage, herr]

/-- Witness for C10: re-adding under an existing custom id keeps the world
unchanged. -/
theorem tryAddCustomStorage_existing_unchanged_witness :
    tryAddCustomStorage 0 worldWithCustom (StorageId.Custom 7) 9 =
      Except.ok worldWithCustom :=
  (tryAddCustomStorage_existing_unchanged Nat worldWithCustom
    (StorageId.Custom 7) 9 0 rfl (by decide)).1 (by decide) (by decide)

end Shipyard
